import Mathlib

/-!
Verification of the connection-registry and message-relay core of the
`grandmaster` repository (`src/websocket_server.py`, with the notification
sink wrapper from `src/grandmaster.py`).

The embedding is shallow:
* the event-loop clock is a natural number (monotonic ticks);
* outcomes of external library calls (`json.dumps`, `websocket.send`,
  `websockets.serve`, the Telegram client) are inputs of type
  `Except String _`, with `.error` standing for a raised exception;
* a Python `try ... except` is translated as a `match` on those outcomes;
* `json.loads` of a frame body is modelled by its result: `none` for a
  `json.JSONDecodeError`, `some fields` for a decoded JSON object given as
  an association list of keys to values.
-/

namespace Grandmaster

/-- Result of decoding one JSON value inside an envelope.  A Python value is
either a `str` (the only case `isinstance(data['app'], str)` accepts) or some
other JSON value carried together with its `str()` rendering, which is what an
f-string interpolation produces for it. -/
inductive JValue where
  | jstr (s : String)
  | jother (rendering : String)
deriving DecidableEq, Repr

/-- Rendering of a decoded value by Python string interpolation. -/
def JValue.render : JValue → String
  | .jstr s => s
  | .jother r => r

/-- Decoded body of one inbound frame: `none` models `json.JSONDecodeError`,
`some fields` models a decoded JSON object. -/
abbrev Decoded := Option (List (String × JValue))

/-- Session state of `AppConnection.__init__`: identity, label, peer address
and the two monotonic timestamps. -/
structure AppConnection where
  id : Nat
  app_name : String
  remote_address : String
  connected_at : Nat
  last_message_at : Nat
deriving DecidableEq, Repr

/-- Constructor path used by `_handle_connection`: `AppConnection(websocket)`
passes no name, so `app_name or "unknown"` yields `"unknown"`, and both
timestamps start at the current loop time. -/
def AppConnection.create (i : Nat) (remote : String) (now : Nat) : AppConnection :=
  { id := i
    app_name := "unknown"
    remote_address := remote
    connected_at := now
    last_message_at := now }

/-- The `uptime` property: current loop time minus `connected_at`. -/
def AppConnection.uptime (c : AppConnection) (now : Nat) : Nat :=
  now - c.connected_at

/-- Body of the `try` block of `AppConnection.send`:
`await self.websocket.send(json.dumps(message)); return True`.
`serialize` is the outcome of `json.dumps(message)` and `write` the outcome of
the single transport write. -/
def sendBody (serialize : Except String String) (write : Except String Unit) :
    Except String Bool := do
  let _payload ← serialize
  let _ ← write
  pure true

/-- `AppConnection.send`: the `try` body wrapped in `except Exception: return
False`.  Any exception of the body is caught and converted to `false`; no
exception escapes, hence the plain `Bool` result. -/
def AppConnection.send (serialize : Except String String)
    (write : Except String Unit) : Bool :=
  match sendBody serialize write with
  | .ok b => b
  | .error _ => false

/-- Number of transport writes `AppConnection.send` attempts: the single
`await self.websocket.send(...)` runs exactly when `json.dumps` returned a
payload, and is never retried. -/
def sendWrites (serialize : Except String String) : Nat :=
  match serialize with
  | .error _ => 0
  | .ok _ => 1

/-- The connection registry `self.connections : Dict[int, AppConnection]`,
as an association list with unique keys. -/
abbrev Registry := List (Nat × AppConnection)

/-- Registration step `self.connections[conn.id] = conn`: dictionary
assignment, replacing any entry already stored under the same key. -/
def registerConn (reg : Registry) (c : AppConnection) : Registry :=
  (c.id, c) :: reg.filter (fun p => p.fst ≠ c.id)

/-- Cleanup step of the `finally` block:
`if conn.id in self.connections: del self.connections[conn.id]`. -/
def unregisterConn (reg : Registry) (i : Nat) : Registry :=
  if (reg.lookup i).isSome then reg.filter (fun p => p.fst ≠ i) else reg

/-- Server state of `WebSocketServer.__init__`: configured endpoint, the
registry, the `self.server` handle (`Option Unit`, `none` meaning Python
`None`) and the `_stopping` flag. -/
structure WebSocketServer where
  host : String
  port : Nat
  connections : Registry
  server : Option Unit
  stopping : Bool
deriving DecidableEq, Repr

/-- Fresh server as built by `WebSocketServer.__init__`. -/
def WebSocketServer.create (host : String) (port : Nat) : WebSocketServer :=
  { host := host, port := port, connections := [], server := none, stopping := false }

/-- `WebSocketServer.start`: `websockets.serve(...)` either binds (handle
stored in `self.server`) or raises `OSError`, which the `except OSError`
clause logs and re-raises unchanged.  `bind` is the outcome of the single
`websockets.serve` call; it is consumed once, with no retry. -/
def WebSocketServer.start (s : WebSocketServer) (bind : Except String Unit) :
    Except String WebSocketServer :=
  match bind with
  | .ok _ => .ok { s with server := some () }
  | .error e => .error e

/-- Observable effects of `WebSocketServer.stop`: which session transports
received a close request, and whether the listening endpoint was closed and
awaited. -/
structure StopTrace where
  closeSignals : List Nat
  endpointClosed : Bool
deriving DecidableEq, Repr

/-- `WebSocketServer.stop`: guarded by `if self.server:`.  It sets
`_stopping`, requests a close of every registered connection's websocket
(gathered with `return_exceptions=True`, best effort), closes the listening
endpoint and waits for it.  It assigns neither `self.server = None` nor
`self.connections`, so both fields keep their values. -/
def WebSocketServer.stop (s : WebSocketServer) : WebSocketServer × StopTrace :=
  match s.server with
  | none => (s, { closeSignals := [], endpointClosed := false })
  | some _ =>
      ({ s with stopping := true },
       { closeSignals := s.connections.map (fun p => p.fst)
         endpointClosed := true })

/-- Aggregate outcome of one `WebSocketServer.broadcast` call. -/
structure BroadcastTrace where
  attempted : Nat
  failed : Nat
  warned : Bool
deriving DecidableEq, Repr

/-- `WebSocketServer.broadcast`: early return on an empty registry, otherwise
one `conn.send(message)` per registered session, gathered concurrently;
`failed = sum(1 for r in results if r is not True)`; a single aggregate
warning iff `failed` is nonzero.  `json.dumps(message)` has one outcome per
`send` call for the same message, so `serialize` is shared; `write i` is the
transport-write outcome for the session with id `i`.  The registry itself is
returned unchanged. -/
def WebSocketServer.broadcast (s : WebSocketServer)
    (serialize : Except String String) (write : Nat → Except String Unit) :
    WebSocketServer × BroadcastTrace :=
  if s.connections.isEmpty then
    (s, { attempted := 0, failed := 0, warned := false })
  else
    let results := s.connections.map (fun p => AppConnection.send serialize (write p.fst))
    let failed := (results.filter (fun r => r ≠ true)).length
    (s, { attempted := results.length, failed := failed, warned := failed ≠ 0 })

/-- `Grandmaster.send_message` (the notification sink wrapper in
`grandmaster.py`): forwards to the Telegram client inside
`try ... except Exception: return None`, so a failing sink call yields `none`
instead of an exception. -/
def sendMessageWrapper (telegramOutcome : Except String Unit) : Option Unit :=
  match telegramOutcome with
  | .ok u => some u
  | .error _ => none

/-- Observable outcome of processing one inbound frame in the receive loop of
`_handle_connection`. -/
structure FrameResult where
  conn : AppConnection
  forwarded : Option String
  noContentWarning : Bool
  decodeError : Bool
deriving DecidableEq, Repr

/-- One iteration of the receive loop of `_handle_connection` (the body read
while `_stopping` is false), on the decoded form of the frame:
on `json.JSONDecodeError` the error is logged and the frame dropped;
otherwise the `app` field (when a string) renames the session, the
`last_message_at` timestamp is set to the current loop time, and a `content`
field is formatted as an f-string and forwarded to the notification sink,
while a missing `content` only logs a warning. -/
def handleFrame (conn : AppConnection) (now : Nat) (decoded : Decoded) :
    FrameResult :=
  match decoded with
  | none =>
      { conn := conn, forwarded := none, noContentWarning := false, decodeError := true }
  | some data =>
      let conn1 :=
        match data.lookup "app" with
        | some (JValue.jstr s) => { conn with app_name := s }
        | _ => conn
      let conn2 := { conn1 with last_message_at := now }
      match data.lookup "content" with
      | some v =>
          { conn := conn2
            forwarded := some ("📨 Message from " ++ conn2.app_name ++ ":\n" ++ v.render)
            noContentWarning := false
            decodeError := false }
      | none =>
          { conn := conn2, forwarded := none, noContentWarning := true, decodeError := false }

/-- The receive loop over a sequence of inbound frames, each paired with the
loop time at which it arrives: returns the final session state and the
messages forwarded to the notification sink, in order. -/
def processFrames (conn : AppConnection) :
    List (Nat × Decoded) → AppConnection × List String
  | [] => (conn, [])
  | (t, d) :: rest =>
      let r := handleFrame conn t d
      let tail := processFrames r.conn rest
      (tail.fst,
       match r.forwarded with
       | some m => m :: tail.snd
       | none => tail.snd)

/-- Exit paths of a session's receive loop in `_handle_connection`: the
`async for` ends (peer close handshake read to completion or `_stopping`
break), `ConnectionClosed` is caught, or the catch-all
`except Exception` fires. -/
inductive ExitReason where
  | gracefulClose
  | connectionClosed
  | unhandledError
  | stoppingBreak
deriving DecidableEq, Repr

/-- Effect of one whole `_handle_connection` call on the registry: the
session is registered on entry, and whichever way the loop exits, the
`finally` block runs the same cleanup. -/
def runSession (reg : Registry) (conn : AppConnection) (exit : ExitReason) :
    Registry :=
  let reg1 := registerConn reg conn
  match exit with
  | .gracefulClose => unregisterConn reg1 conn.id
  | .connectionClosed => unregisterConn reg1 conn.id
  | .unhandledError => unregisterConn reg1 conn.id
  | .stoppingBreak => unregisterConn reg1 conn.id

/-- Per-connection summary built by `get_status`.  Note `last_message` is
`int(conn.last_message_at)`: the timestamp itself, not an elapsed duration. -/
structure ConnSummary where
  app : String
  remote : String
  uptime : Nat
  last_message : Nat
deriving DecidableEq, Repr

/-- Status dictionary returned by `WebSocketServer.get_status`. -/
structure ServerStatus where
  active : Bool
  host : String
  port : Nat
  connections : Nat
  connections_info : List ConnSummary
deriving DecidableEq, Repr

/-- Summary of one registered session at loop time `now`, as assembled inside
the `get_status` loop. -/
def summarize (c : AppConnection) (now : Nat) : ConnSummary :=
  { app := c.app_name
    remote := c.remote_address
    uptime := c.uptime now
    last_message := c.last_message_at }

/-- `WebSocketServer.get_status`: `active` is `self.server is not None`,
`connections` the registry size, and one summary per registered session. -/
def WebSocketServer.get_status (s : WebSocketServer) (now : Nat) : ServerStatus :=
  { active := s.server.isSome
    host := s.host
    port := s.port
    connections := s.connections.length
    connections_info := s.connections.map (fun p => summarize p.snd now) }

/-! Helper lemmas about the registry operations. -/

theorem lookup_filter_self (reg : Registry) (i : Nat) :
    (reg.filter (fun p => p.fst ≠ i)).lookup i = none := by
  simp [List.lookup_eq_none_iff]
  exact fun a b _ hne hia => hne hia.symm

theorem mem_lookup_isSome (reg : Registry) (p : Nat × AppConnection)
    (hp : p ∈ reg) : (reg.lookup p.fst).isSome = true := by
  induction reg with
  | nil => cases hp
  | cons hd tl ih =>
      rcases List.mem_cons.mp hp with h | h
      · subst h
        simp [List.lookup]
      · by_cases hk : p.fst == hd.fst
        · simp [List.lookup, hk]
        · simp only [List.lookup, hk]
          exact ih h

theorem unregister_lookup_none (reg : Registry) (i : Nat) :
    ((unregisterConn reg i).lookup i) = none := by
  unfold unregisterConn
  by_cases h : (reg.lookup i).isSome
  · simp only [h, if_true]
    exact lookup_filter_self reg i
  · simp only [h, if_false]
    exact Option.not_isSome_iff_eq_none.mp h

theorem mem_unregister (reg : Registry) (k : Nat) (p : Nat × AppConnection)
    (hp : p ∈ unregisterConn reg k) : p ∈ reg ∧ p.fst ≠ k := by
  unfold unregisterConn at hp
  by_cases h : (reg.lookup k).isSome
  · simp only [h, if_true] at hp
    have hmf := List.mem_filter.mp hp
    refine ⟨hmf.1, ?_⟩
    simpa using hmf.2
  · simp only [h, if_false] at hp
    refine ⟨hp, ?_⟩
    intro hk
    exact h (hk ▸ mem_lookup_isSome reg p hp)

theorem foldl_unregister_empty (ks : List Nat) (reg : Registry)
    (h : ∀ p ∈ reg, p.fst ∈ ks) : ks.foldl unregisterConn reg = [] := by
  induction ks generalizing reg with
  | nil =>
      cases reg with
      | nil => rfl
      | cons hd tl => cases h hd (List.mem_cons_self hd tl)
  | cons k ks ih =>
      simp only [List.foldl]
      apply ih
      intro p hp
      rcases mem_unregister reg k p hp with ⟨hmem, hne⟩
      rcases List.mem_cons.mp (h p hmem) with hk | hk
      · exact absurd hk hne
      · exact hk

theorem length_filter_map_ne_true {α : Type} (l : List α) (f : α → Bool) :
    ((l.map f).filter (fun r => r ≠ true)).length
      = (l.filter (fun a => f a = false)).length := by
  induction l with
  | nil => rfl
  | cons hd tl ih =>
      simp at ih
      cases hf : f hd <;> simp [hf, List.filter_cons, ih]

/-- Removing an id twice removes it once: the second call finds the id absent
and takes the no-op branch. -/
theorem unregister_idem (reg : Registry) (i : Nat) :
    unregisterConn (unregisterConn reg i) i = unregisterConn reg i := by
  have h := unregister_lookup_none reg i
  rw [unregisterConn, h]
  simp

/-- Removing an absent id leaves the registry untouched. -/
theorem unregister_absent (reg : Registry) (j : Nat) (habs : reg.lookup j = none) :
    unregisterConn reg j = reg := by
  unfold unregisterConn
  simp [habs]

/-! Concrete sessions and servers used by witnesses and counterexamples. -/

/-- Concrete session, freshly created at loop time 5. -/
def demoConn : AppConnection :=
  { id := 7, app_name := "unknown", remote_address := "127.0.0.1:40000",
    connected_at := 5, last_message_at := 5 }

/-- Concrete session that last spoke at loop time 90. -/
def statusConn : AppConnection :=
  { id := 1, app_name := "scout", remote_address := "10.0.0.2:9000",
    connected_at := 80, last_message_at := 90 }

/-- Concrete started server holding one registered session. -/
def statusServer : WebSocketServer :=
  { host := "0.0.0.0", port := 8765, connections := [(1, statusConn)],
    server := some (), stopping := false }

/-- Concrete started server holding three registered sessions. -/
def stopServer : WebSocketServer :=
  { host := "0.0.0.0", port := 8765
    connections :=
      [(1, statusConn),
       (2, { statusConn with id := 2, remote_address := "10.0.0.3:9000" }),
       (3, { statusConn with id := 3, remote_address := "10.0.0.4:9000" })]
    server := some ()
    stopping := false }

/-! Claim theorems. -/

/-- C3: on every exit path of `_handle_connection` (graceful close, caught
`ConnectionClosed`, catch-all exception handler, `_stopping` break) the
`finally` cleanup removes the session from the registry; removing an id
twice is the same as removing it once, and removing an absent id is a
no-op. -/
theorem cleanup_unregisters_once
    (reg reg2 reg3 : Registry) (conn : AppConnection)
    (exit : ExitReason) (i j : Nat)
    (habs : reg3.lookup j = none) :
    (runSession reg conn exit).lookup conn.id = none ∧
    unregisterConn (unregisterConn reg2 i) i = unregisterConn reg2 i ∧
    unregisterConn reg3 j = reg3 := by
  refine ⟨?_, unregister_idem reg2 i, unregister_absent reg3 j habs⟩
  cases exit <;> exact unregister_lookup_none _ conn.id

/-- Witness for C3 at a concrete registry, session and exit path. -/
theorem cleanup_unregisters_once_witness :
    (([] : Registry).lookup 3 = none) ∧
    ((runSession [(1, statusConn)] demoConn ExitReason.unhandledError).lookup demoConn.id = none ∧
     unregisterConn (unregisterConn [(7, demoConn)] 7) 7 = unregisterConn [(7, demoConn)] 7 ∧
     unregisterConn ([] : Registry) 3 = []) :=
  ⟨rfl,
   cleanup_unregisters_once [(1, statusConn)] [(7, demoConn)] []
     demoConn ExitReason.unhandledError 7 3 rfl⟩

/-- C2: `broadcast` attempts one `send` per registered session (K attempts
for K sessions), counts exactly the sends whose result is not `True`, warns
precisely when that count is positive, and leaves the registry unchanged.
The embedded function is total (it returns a plain trace, never an
exception), mirroring `asyncio.gather(..., return_exceptions=True)` over
`send` calls that themselves only return booleans. -/
theorem broadcast_attempts_and_counts (s : WebSocketServer)
    (serialize : Except String String) (write : Nat → Except String Unit) :
    (s.broadcast serialize write).snd.attempted = s.connections.length ∧
    (s.broadcast serialize write).snd.failed
      = (s.connections.filter
          (fun p => AppConnection.send serialize (write p.fst) = false)).length ∧
    ((s.broadcast serialize write).snd.warned = true
      ↔ 0 < (s.broadcast serialize write).snd.failed) ∧
    (s.broadcast serialize write).fst = s := by
  by_cases hemp : s.connections.isEmpty
  · have h : s.connections = [] := List.isEmpty_iff.mp hemp
    simp [WebSocketServer.broadcast, h]
  · have hlen := length_filter_map_ne_true s.connections
      (fun p => AppConnection.send serialize (write p.fst))
    simp only [WebSocketServer.broadcast, hemp, Bool.false_eq_true, if_false]
    refine ⟨List.length_map _ _, hlen, ?_, trivial⟩
    simp only [decide_eq_true_eq]
    exact Nat.pos_iff_ne_zero.symm

/-- C9: `broadcast` on an empty registry returns at the `if not
self.connections: return` guard: zero sends attempted, no warning, registry
unchanged. -/
theorem broadcast_empty_noop (s : WebSocketServer)
    (serialize : Except String String) (write : Nat → Except String Unit)
    (h : s.connections = []) :
    s.broadcast serialize write
      = (s, { attempted := 0, failed := 0, warned := false }) := by
  simp [WebSocketServer.broadcast, h]

/-- Witness for C9 on a freshly created server. -/
theorem broadcast_empty_noop_witness :
    ((WebSocketServer.create "0.0.0.0" 8765).connections = []) ∧
    ((WebSocketServer.create "0.0.0.0" 8765).broadcast
        (Except.ok "x") (fun _ => Except.ok ())
      = (WebSocketServer.create "0.0.0.0" 8765,
         { attempted := 0, failed := 0, warned := false })) :=
  ⟨rfl,
   broadcast_empty_noop (WebSocketServer.create "0.0.0.0" 8765)
     (Except.ok "x") (fun _ => Except.ok ()) rfl⟩

/-- C6: `AppConnection.send` returns a boolean and never raises: the
`except Exception` wrapper is embedded in its definition, so its type is
`Bool`.  On a serialized payload it attempts exactly one transport write and
does not retry, and a transport error during that write becomes `false`. -/
theorem send_reports_failure_once (p e : String) :
    AppConnection.send (Except.ok p) (Except.ok ()) = true ∧
    AppConnection.send (Except.ok p) (Except.error e) = false ∧
    sendWrites (Except.ok p) = 1 :=
  ⟨rfl, rfl, rfl⟩

/-- C10: a `json.dumps` failure inside `AppConnection.send` is caught by the
same `except Exception` clause and converted to `false` (with no transport
write attempted at all). -/
theorem send_serialize_error_false (e : String) (w : Except String Unit) :
    AppConnection.send (Except.error e) w = false ∧
    sendWrites (Except.error e) = 0 :=
  ⟨rfl, rfl⟩

/-- C8: `WebSocketServer.start` re-raises a bind failure unchanged to its
caller and does not retry (the single `websockets.serve` outcome is consumed
once); on success the server handle is stored. -/
theorem start_propagates_bind_error (s : WebSocketServer) (e : String) (u : Unit) :
    s.start (Except.error e) = Except.error e ∧
    s.start (Except.ok u) = Except.ok { s with server := some () } :=
  ⟨rfl, rfl⟩

/-- Counterexample for C1: at loop time 10, a frame whose body fails JSON
decoding leaves `demoConn` (whose `last_message_at` is 5) untouched and
forwards nothing to the notification sink, contradicting the claim that
`lastMessageAt` advances and the raw text is forwarded as content. -/
theorem malformed_frame_cex :
    ¬ ((handleFrame demoConn 10 none).conn.last_message_at = 10 ∧
       (handleFrame demoConn 10 none).forwarded.isSome = true) := by
  decide

/-- C1 (amended): a frame that fails JSON decoding is logged and dropped by
the `except json.JSONDecodeError` clause: the session state is unchanged
(in particular `last_message_at` is not updated), nothing is forwarded, and
the receive loop continues with the remaining frames — the decode failure
alone never terminates the session. -/
theorem malformed_frame_dropped (conn : AppConnection) (t : Nat)
    (rest : List (Nat × Decoded)) :
    handleFrame conn t none
      = { conn := conn, forwarded := none,
          noContentWarning := false, decodeError := true } ∧
    processFrames conn ((t, none) :: rest) = processFrames conn rest :=
  ⟨rfl, rfl⟩

/-- Counterexample for C7: for a decoded envelope carrying content
`"hello"` from a still-unidentified session, the relay notification is
`"📨 Message from unknown:\nhello"`, not `"Message from unknown: hello"`. -/
theorem relay_format_cex :
    (handleFrame demoConn 10 (some [("content", JValue.jstr "hello")])).forwarded
      = some ("📨 Message from unknown:\nhello") ∧
    (handleFrame demoConn 10 (some [("content", JValue.jstr "hello")])).forwarded
      ≠ some ("Message from unknown: hello") := by
  constructor
  · decide
  · decide

/-- C7 (amended): on a successfully decoded envelope the receive loop
renames the session from the string-typed `app` field (labels start as
`"unknown"`), sets `last_message_at` to the current loop time, forwards
`"📨 Message from {appName}:\n{content}"` to the notification sink when a
`content` field is present, and only logs a warning (forwarding nothing)
when it is absent; a sink failure is swallowed by the
`try ... except ... return None` wrapper of `Grandmaster.send_message` and
never reaches the loop. -/
theorem decoded_frame_step (conn : AppConnection) (now : Nat)
    (data data2 : List (String × JValue)) (s : String) (v : JValue)
    (i : Nat) (r : String) (t : Nat) (e : String)
    (happ : data.lookup "app" = some (JValue.jstr s))
    (hcontent : data.lookup "content" = some v)
    (hnone : data2.lookup "content" = none) :
    (AppConnection.create i r t).app_name = "unknown" ∧
    (handleFrame conn now (some data)).conn.app_name = s ∧
    (handleFrame conn now (some data)).conn.last_message_at = now ∧
    (handleFrame conn now (some data)).forwarded
      = some ("📨 Message from " ++ s ++ ":\n" ++ v.render) ∧
    (handleFrame conn now (some data)).noContentWarning = false ∧
    (handleFrame conn now (some data2)).conn.last_message_at = now ∧
    (handleFrame conn now (some data2)).forwarded = none ∧
    (handleFrame conn now (some data2)).noContentWarning = true ∧
    sendMessageWrapper (Except.error e) = none := by
  cases happ2 : data2.lookup "app" with
  | none => simp [handleFrame, AppConnection.create, happ, hcontent, hnone, happ2, sendMessageWrapper]
  | some w =>
      cases w with
      | jstr s2 => simp [handleFrame, AppConnection.create, happ, hcontent, hnone, happ2, sendMessageWrapper]
      | jother r2 => simp [handleFrame, AppConnection.create, happ, hcontent, hnone, happ2, sendMessageWrapper]

/-- Concrete envelope with both an `app` and a `content` field. -/
def relayData : List (String × JValue) :=
  [("app", JValue.jstr "scout"), ("content", JValue.jstr "hello")]

/-- Concrete envelope with an `app` field but no `content` field. -/
def relayData2 : List (String × JValue) :=
  [("app", JValue.jstr "scout")]

/-- Witness for C7 on concrete envelopes. -/
theorem decoded_frame_step_witness :
    (relayData.lookup "app" = some (JValue.jstr "scout")) ∧
    (relayData.lookup "content" = some (JValue.jstr "hello")) ∧
    (relayData2.lookup "content" = none) ∧
    ((AppConnection.create 4 "1.2.3.4:5" 17).app_name = "unknown" ∧
     (handleFrame demoConn 10 (some relayData)).conn.app_name = "scout" ∧
     (handleFrame demoConn 10 (some relayData)).conn.last_message_at = 10 ∧
     (handleFrame demoConn 10 (some relayData)).forwarded
       = some ("📨 Message from " ++ "scout" ++ ":\n" ++ (JValue.jstr "hello").render) ∧
     (handleFrame demoConn 10 (some relayData)).noContentWarning = false ∧
     (handleFrame demoConn 10 (some relayData2)).conn.last_message_at = 10 ∧
     (handleFrame demoConn 10 (some relayData2)).forwarded = none ∧
     (handleFrame demoConn 10 (some relayData2)).noContentWarning = true ∧
     sendMessageWrapper (Except.error "boom") = none) :=
  ⟨by decide, by decide, by decide,
   decoded_frame_step demoConn 10 relayData relayData2 "scout"
     (JValue.jstr "hello") 4 "1.2.3.4:5" 17 "boom"
     (by decide) (by decide) (by decide)⟩

/-- Counterexample for C4: `get_status` reports `last_message` as the raw
timestamp (`int(conn.last_message_at)`, here 90), not the seconds elapsed
since the last message (which would be `100 - 90`). -/
theorem get_status_last_message_cex :
    (statusServer.get_status 100).connections_info
      = [{ app := "scout", remote := "10.0.0.2:9000", uptime := 20, last_message := 90 }] ∧
    ¬ ((statusServer.get_status 100).connections_info
      = [{ app := "scout", remote := "10.0.0.2:9000", uptime := 20, last_message := 100 - 90 }]) := by
  constructor
  · decide
  · decide

/-- C4 (amended): `get_status` reports the active flag (`self.server is not
None`), the bound host and port, the registry size, and one summary per
registered session carrying its `app_name`, its `remote_address`, its
integer uptime in seconds, and the integer value of its `last_message_at`
timestamp (not the elapsed seconds since the last message). -/
theorem get_status_reports (s : WebSocketServer) (now : Nat)
    (p : Nat × AppConnection) (hp : p ∈ s.connections) :
    (s.get_status now).active = s.server.isSome ∧
    (s.get_status now).host = s.host ∧
    (s.get_status now).port = s.port ∧
    (s.get_status now).connections = s.connections.length ∧
    summarize p.snd now ∈ (s.get_status now).connections_info ∧
    (summarize p.snd now).app = p.snd.app_name ∧
    (summarize p.snd now).remote = p.snd.remote_address ∧
    (summarize p.snd now).uptime = now - p.snd.connected_at ∧
    (summarize p.snd now).last_message = p.snd.last_message_at := by
  refine ⟨rfl, rfl, rfl, rfl, ?_, rfl, rfl, rfl, rfl⟩
  exact List.mem_map_of_mem _ hp

/-- Witness for C4 (amended) on a concrete server state. -/
theorem get_status_reports_witness :
    ((1, statusConn) ∈ statusServer.connections) ∧
    ((statusServer.get_status 100).active = statusServer.server.isSome ∧
     (statusServer.get_status 100).host = statusServer.host ∧
     (statusServer.get_status 100).port = statusServer.port ∧
     (statusServer.get_status 100).connections = statusServer.connections.length ∧
     summarize (1, statusConn).snd 100 ∈ (statusServer.get_status 100).connections_info ∧
     (summarize (1, statusConn).snd 100).app = (1, statusConn).snd.app_name ∧
     (summarize (1, statusConn).snd 100).remote = (1, statusConn).snd.remote_address ∧
     (summarize (1, statusConn).snd 100).uptime = 100 - (1, statusConn).snd.connected_at ∧
     (summarize (1, statusConn).snd 100).last_message = (1, statusConn).snd.last_message_at) :=
  ⟨by decide, get_status_reports statusServer 100 (1, statusConn) (by decide)⟩

/-- Counterexample for C5: after `stop()` on a started server with three
registered sessions, `get_status` still reports `active == true` (the code
never clears `self.server`) and `connections == 3` (the registry is emptied
only by each session's own cleanup), contradicting the claimed
`active == false` and `connections == 0`. -/
theorem stop_status_cex :
    ((stopServer.stop).fst.get_status 100).active = true ∧
    ((stopServer.stop).fst.get_status 100).connections = 3 ∧
    ¬ (((stopServer.stop).fst.get_status 100).active = false ∧
       ((stopServer.stop).fst.get_status 100).connections = 0) := by
  refine ⟨by decide, by decide, by decide⟩

/-- C5 (amended): `stop()` on a started server asks every registered
session's transport to close and closes the listening endpoint, but leaves
`self.server` set — so a subsequent `get_status` still reports
`active == true` — and leaves the registry untouched; the registry reaches
size 0 only once every session's receive loop has run its own `finally`
cleanup. -/
theorem stop_closes_all_sessions (s : WebSocketServer) (now : Nat)
    (h : s.server = some ()) :
    (s.stop).snd.closeSignals = s.connections.map (fun p => p.fst) ∧
    (s.stop).snd.endpointClosed = true ∧
    (s.stop).fst.connections = s.connections ∧
    ((s.stop).fst.get_status now).active = true ∧
    ((s.stop).fst.connections.map (fun p => p.fst)).foldl unregisterConn
        (s.stop).fst.connections = [] := by
  have hstop : s.stop = ({ s with stopping := true },
      { closeSignals := s.connections.map (fun p => p.fst)
        endpointClosed := true }) := by
    unfold WebSocketServer.stop
    rw [h]
  rw [hstop]
  refine ⟨rfl, rfl, rfl, ?_, ?_⟩
  · simp [WebSocketServer.get_status, h]
  · exact foldl_unregister_empty _ _ (fun p hp => List.mem_map_of_mem _ hp)

/-- Witness for C5 (amended) on the concrete three-session server. -/
theorem stop_closes_all_sessions_witness :
    (stopServer.server = some ()) ∧
    ((stopServer.stop).snd.closeSignals = stopServer.connections.map (fun p => p.fst) ∧
     (stopServer.stop).snd.endpointClosed = true ∧
     (stopServer.stop).fst.connections = stopServer.connections ∧
     ((stopServer.stop).fst.get_status 100).active = true ∧
     ((stopServer.stop).fst.connections.map (fun p => p.fst)).foldl unregisterConn
        (stopServer.stop).fst.connections = []) :=
  ⟨rfl, stop_closes_all_sessions stopServer 100 rfl⟩

end Grandmaster
